import Mathlib

/-!
Shallow embedding of the Driver Fatigue Prediction System
(fatigue_project: model.py, utils.py, streamlit_app.py).

Numeric values are modelled as exact rationals; the decimal weights of the
scoring formula (1.5, 1.2, 1.0, 0.1, 0.5) are exact rationals here.  The
sklearn classifier, scaler and label encoder used by train_model and
predict_status are external library objects; where a claim mentions them
they are modelled as abstract function parameters.
-/

namespace Fatigue

/-- A driver input row: the fields read by the scoring formula and the
prediction pipeline (model.py).  Time_of_Day is one of the strings
"Morning", "Afternoon", "Night". -/
structure Row where
  Sleep_Hours : ℚ
  Driving_Hours : ℚ
  Caffeine_Cups : ℚ
  Rest_Breaks : ℚ
  Age : ℚ
  Stress_Level : ℚ
  Time_of_Day : String
deriving Repr, DecidableEq

/-- model.py, weighted_fatigue_score: sequential accumulation of the six
penalty terms, line by line as in the source. -/
def weighted_fatigue_score (row : Row) : ℚ :=
  let score : ℚ := 0
  let score := score + max 0 (8 - row.Sleep_Hours) * 1.5
  let score := score + max 0 (row.Driving_Hours - 6) * 1.2
  let score := score + (if row.Caffeine_Cups ≥ 2 then 0 else 1.0)
  let score := score + max 0 (20 - row.Rest_Breaks) * 0.1
  let score := score + (if row.Stress_Level > 5 then (row.Stress_Level - 5) * 0.5 else 0)
  let score := if row.Time_of_Day = "Night" then score + 1.0 else score
  score

/-- utils.py, get_risk_color. -/
def get_risk_color (score : ℚ) : String :=
  if score < 3 then "#10b981"
  else if score < 5 then "#f59e0b"
  else "#ef4444"

/-- utils.py, get_risk_level. -/
def get_risk_level (score : ℚ) : String :=
  if score < 3 then "Low Risk"
  else if score < 5 then "Moderate Risk"
  else "High Risk"

/-- utils.py, get_action_message: the SAFE message returned for score < 3. -/
def safe_message : String :=
  "✅ SAFE: Driver can continue driving. Maintain standard vigilance. Encourage brief breaks every 2–3 hours."

/-- utils.py, get_action_message: the CAUTION message returned for 3 ≤ score < 5. -/
def caution_message : String :=
  "⚠️ CAUTION: Moderate risk — recommend a SHORT rest (15–30 min) and reassess. Avoid long or monotonous driving until score improves."

/-- utils.py, get_action_message: the DANGER message returned for score ≥ 5. -/
def danger_message : String :=
  "🚫 DANGER: High risk — DO NOT DRIVE. Take a sustained rest (1–2 hours) or seek replacement before resuming."

/-- utils.py, get_action_message. -/
def get_action_message (score : ℚ) : String :=
  if score < 3 then safe_message
  else if score < 5 then caution_message
  else danger_message

/-- The fatigue score written as a flat sum of the six penalty terms.
Shared helper relating the sequential accumulation in the source to a
flat sum; used by several theorems below. -/
lemma weighted_fatigue_score_eq (row : Row) :
    weighted_fatigue_score row =
      max 0 (8 - row.Sleep_Hours) * 1.5
      + max 0 (row.Driving_Hours - 6) * 1.2
      + (if row.Caffeine_Cups ≥ 2 then 0 else 1.0)
      + max 0 (20 - row.Rest_Breaks) * 0.1
      + (if row.Stress_Level > 5 then (row.Stress_Level - 5) * 0.5 else 0)
      + (if row.Time_of_Day = "Night" then 1.0 else 0) := by
  simp only [weighted_fatigue_score]
  split_ifs <;> ring

/-- C1: for the row Sleep_Hours=7, Driving_Hours=5, Caffeine_Cups=1,
Rest_Breaks=30, Stress_Level=4, Time_of_Day="Morning" (any Age),
weighted_fatigue_score returns exactly 2.5 and get_risk_level of that
score is "Low Risk". -/
theorem example_row_score (age : ℚ) :
    weighted_fatigue_score ⟨7, 5, 1, 30, age, 4, "Morning"⟩ = 2.5
    ∧ get_risk_level (weighted_fatigue_score ⟨7, 5, 1, 30, age, 4, "Morning"⟩) = "Low Risk" := by
  have h : weighted_fatigue_score ⟨7, 5, 1, 30, age, 4, "Morning"⟩ = 2.5 := by
    rw [weighted_fatigue_score_eq]
    norm_num [max_def]
    decide
  refine ⟨h, ?_⟩
  rw [h]
  norm_num [get_risk_level]

/-- The scoring formula exactly as the specification words it: six summands,
with the caffeine penalty stated as Caffeine_Cups < 2 and the night
penalty stated as an additive term. -/
def spec_fatigue_score (row : Row) : ℚ :=
  max 0 (8 - row.Sleep_Hours) * 1.5
  + max 0 (row.Driving_Hours - 6) * 1.2
  + (if row.Caffeine_Cups < 2 then 1.0 else 0)
  + max 0 (20 - row.Rest_Breaks) * 0.1
  + (if row.Stress_Level > 5 then (row.Stress_Level - 5) * 0.5 else 0)
  + (if row.Time_of_Day = "Night" then 1.0 else 0)

/-- C2: for every input row, weighted_fatigue_score equals the sum of the
six terms described by the specification. -/
theorem weighted_fatigue_score_spec (row : Row) :
    weighted_fatigue_score row = spec_fatigue_score row := by
  rw [weighted_fatigue_score_eq]
  simp only [spec_fatigue_score]
  split_ifs <;> (first | ring1 | linarith)

/-- C3: with all other fields held fixed, the score is non-decreasing in
Driving_Hours for values 6 ≤ d1 ≤ d2, and non-increasing in Sleep_Hours
for values s1 ≤ s2. -/
theorem score_monotone (sl dh cf rb ag st : ℚ) (tod : String)
    (d1 d2 s1 s2 : ℚ) (hd : d1 ≤ d2) (h6 : 6 ≤ d1) (hs : s1 ≤ s2) :
    weighted_fatigue_score ⟨sl, d1, cf, rb, ag, st, tod⟩
        ≤ weighted_fatigue_score ⟨sl, d2, cf, rb, ag, st, tod⟩
    ∧ weighted_fatigue_score ⟨s2, dh, cf, rb, ag, st, tod⟩
        ≤ weighted_fatigue_score ⟨s1, dh, cf, rb, ag, st, tod⟩ := by
  constructor
  · rw [weighted_fatigue_score_eq, weighted_fatigue_score_eq]
    dsimp only
    have key : max 0 (d1 - 6) * 1.2 ≤ max 0 (d2 - 6) * 1.2 :=
      mul_le_mul_of_nonneg_right (max_le_max le_rfl (by linarith)) (by norm_num)
    linarith [key]
  · rw [weighted_fatigue_score_eq, weighted_fatigue_score_eq]
    dsimp only
    have key : max 0 (8 - s2) * 1.5 ≤ max 0 (8 - s1) * 1.5 :=
      mul_le_mul_of_nonneg_right (max_le_max le_rfl (by linarith)) (by norm_num)
    linarith [key]

/-- Witness for C3 at a concrete instantiation. -/
theorem score_monotone_witness :
    weighted_fatigue_score ⟨7, 6, 1, 30, 35, 4, "Morning"⟩
        ≤ weighted_fatigue_score ⟨7, 8, 1, 30, 35, 4, "Morning"⟩
    ∧ weighted_fatigue_score ⟨7, 5, 1, 30, 35, 4, "Morning"⟩
        ≤ weighted_fatigue_score ⟨5, 5, 1, 30, 35, 4, "Morning"⟩ :=
  score_monotone 7 5 1 30 35 4 "Morning" 6 8 5 7 (by norm_num) (by norm_num) (by norm_num)

/-- C9: the fatigue score is never negative: each of the six summands is
non-negative, so the sum is ≥ 0 for every input row. -/
theorem score_nonneg (row : Row) : 0 ≤ weighted_fatigue_score row := by
  rw [weighted_fatigue_score_eq]
  have t1 : 0 ≤ max 0 (8 - row.Sleep_Hours) * 1.5 :=
    mul_nonneg (le_max_left 0 _) (by norm_num)
  have t2 : 0 ≤ max 0 (row.Driving_Hours - 6) * 1.2 :=
    mul_nonneg (le_max_left 0 _) (by norm_num)
  have t4 : 0 ≤ max 0 (20 - row.Rest_Breaks) * 0.1 :=
    mul_nonneg (le_max_left 0 _) (by norm_num)
  split_ifs <;> linarith

/-- C6: the scoring function is deterministic: identical input rows always
produce identical scores (purity is inherent to the embedding: the
function reads the row fields and touches no other state). -/
theorem score_deterministic (r1 r2 : Row) (h : r1 = r2) :
    weighted_fatigue_score r1 = weighted_fatigue_score r2 := by
  rw [h]

/-- Witness for C6 at a concrete row. -/
theorem score_deterministic_witness :
    weighted_fatigue_score ⟨7, 5, 1, 30, 35, 4, "Morning"⟩
      = weighted_fatigue_score ⟨7, 5, 1, 30, 35, 4, "Morning"⟩ :=
  score_deterministic ⟨7, 5, 1, 30, 35, 4, "Morning"⟩ ⟨7, 5, 1, 30, 35, 4, "Morning"⟩ rfl

/-- model.py, train_model line 42: the labelling rule applied to each
Fatigue_Score value. -/
def driver_status (x : ℚ) : String :=
  if x ≥ 5 then "Fatigued" else "Alert"

/-- model.py, train_model lines 41-42: the Driver_Status column assigned to
a table of rows, via the score of each row. -/
def train_labels (rows : List Row) : List String :=
  rows.map (fun r => driver_status (weighted_fatigue_score r))

/-- C4: in train_model, every row is labelled "Fatigued" exactly when its
weighted_fatigue_score is ≥ 5, and the only labels are "Fatigued" and
"Alert". -/
theorem train_labels_threshold (rows : List Row) (p : Row × String)
    (hp : p ∈ rows.zip (train_labels rows)) :
    (p.2 = "Fatigued" ↔ 5 ≤ weighted_fatigue_score p.1)
    ∧ (p.2 = "Fatigued" ∨ p.2 = "Alert") := by
  have hAF : ("Alert" : String) ≠ "Fatigued" := by decide
  induction rows with
  | nil => simp [train_labels] at hp
  | cons r rs ih =>
    rw [train_labels, List.map_cons, List.zip_cons_cons, List.mem_cons] at hp
    rcases hp with rfl | hp
    · dsimp only
      unfold driver_status
      split_ifs with h
      · simp [h]
      · simp [hAF, h]
    · exact ih hp

/-- Witness for C4: a singleton table whose row scores 20.2 ≥ 5. -/
theorem train_labels_threshold_witness :
    ((((⟨3, 12, 0, 0, 30, 8, "Night"⟩ : Row), "Fatigued") : Row × String).2 = "Fatigued"
        ↔ 5 ≤ weighted_fatigue_score
            ((((⟨3, 12, 0, 0, 30, 8, "Night"⟩ : Row), "Fatigued") : Row × String).1))
    ∧ ((((⟨3, 12, 0, 0, 30, 8, "Night"⟩ : Row), "Fatigued") : Row × String).2 = "Fatigued"
        ∨ (((⟨3, 12, 0, 0, 30, 8, "Night"⟩ : Row), "Fatigued") : Row × String).2 = "Alert") :=
  train_labels_threshold [⟨3, 12, 0, 0, 30, 8, "Night"⟩]
    (⟨3, 12, 0, 0, 30, 8, "Night"⟩, "Fatigued")
    (by
      have h : weighted_fatigue_score ⟨3, 12, 0, 0, 30, 8, "Night"⟩ = 20.2 := by
        rw [weighted_fatigue_score_eq]
        norm_num [max_def]
      have h2 : driver_status (weighted_fatigue_score ⟨3, 12, 0, 0, 30, 8, "Night"⟩)
          = "Fatigued" := by
        rw [h]
        unfold driver_status
        rw [if_pos]
        norm_num
      simp [train_labels, h2])

/-- C10: the three risk helpers partition scores by the same thresholds
(< 3, < 5, ≥ 5) and never disagree on the band of a score; the top band
coincides with the "Fatigued" training-label threshold. -/
theorem risk_helpers_agree (s : ℚ) :
    (get_risk_color s, get_risk_level s, get_action_message s)
      = (if s < 3 then ("#10b981", "Low Risk", safe_message)
         else if s < 5 then ("#f59e0b", "Moderate Risk", caution_message)
         else ("#ef4444", "High Risk", danger_message))
    ∧ (get_risk_level s = "High Risk" ↔ driver_status s = "Fatigued") := by
  have hLH : ("Low Risk" : String) ≠ "High Risk" := by decide
  have hMH : ("Moderate Risk" : String) ≠ "High Risk" := by decide
  have hAF : ("Alert" : String) ≠ "Fatigued" := by decide
  constructor
  · simp only [get_risk_color, get_risk_level, get_action_message]
    split_ifs <;> rfl
  · simp only [get_risk_level, driver_status]
    split_ifs with h1 h2 h3 h4 h5 <;> simp_all <;> linarith

/-- Abstraction of the fitted sklearn RandomForestClassifier used by
predict_status: a predict function and a per-class probability function
over a scaled feature vector.  The learned functions themselves are
external library state, so they are abstract parameters here. -/
structure Classifier where
  predictFn : List ℚ → String
  probaFn : List ℚ → List ℚ

/-- model.py, predict_status lines 63-72: the single-row feature frame
built from the input, with the label-encoded Time_of_Day last. -/
def encode_features (le_time : String → ℚ) (input_data : Row) : List ℚ :=
  [input_data.Sleep_Hours, input_data.Driving_Hours, input_data.Caffeine_Cups,
   input_data.Rest_Breaks, input_data.Age, input_data.Stress_Level,
   le_time input_data.Time_of_Day]

/-- numpy max over the entries of a probability vector (probs.max in
predict_status); numpy raises on an empty array, modelled by the junk
value 0 on []. -/
def listMax : List ℚ → ℚ
  | [] => 0
  | x :: xs => xs.foldl max x

lemma foldl_max_le {b : ℚ} :
    ∀ (xs : List ℚ) (a : ℚ), a ≤ b → (∀ x ∈ xs, x ≤ b) → xs.foldl max a ≤ b
  | [], _, ha, _ => ha
  | x :: xs, a, ha, hxs =>
      foldl_max_le xs (max a x) (max_le ha (hxs x (List.mem_cons_self x xs)))
        (fun y hy => hxs y (List.mem_cons_of_mem x hy))

lemma le_foldl_max : ∀ (xs : List ℚ) (a : ℚ), a ≤ xs.foldl max a
  | [], _ => le_rfl
  | x :: xs, a => le_trans (le_max_left a x) (le_foldl_max xs (max a x))

/-- model.py, predict_status: builds the feature row, scales it, queries the
classifier for a label and for class probabilities, and returns
(pred, confidence, score) with the score recomputed by the formula. -/
def predict_status (model : Classifier) (scaler : List ℚ → List ℚ)
    (le_time : String → ℚ) (input_data : Row) : String × ℚ × ℚ :=
  let X := encode_features le_time input_data
  let X_scaled := scaler X
  let pred := model.predictFn X_scaled
  let probs := model.probaFn X_scaled
  let confidence := listMax probs
  let score := weighted_fatigue_score input_data
  (pred, confidence, score)

/-- C5: predict_status returns the formula score of the exact input row,
independently of the classifier and scaler, and its confidence is the
maximum per-class probability; when the probability vector is non-empty
with entries in [0, 1] (as sklearn guarantees), confidence lies in
[0, 1]. -/
theorem predict_status_spec (model : Classifier) (scaler : List ℚ → List ℚ)
    (le_time : String → ℚ) (input_data : Row)
    (hne : model.probaFn (scaler (encode_features le_time input_data)) ≠ [])
    (hp : ∀ p ∈ model.probaFn (scaler (encode_features le_time input_data)), 0 ≤ p ∧ p ≤ 1) :
    (predict_status model scaler le_time input_data).2.2 = weighted_fatigue_score input_data
    ∧ (predict_status model scaler le_time input_data).2.1
        = listMax (model.probaFn (scaler (encode_features le_time input_data)))
    ∧ 0 ≤ (predict_status model scaler le_time input_data).2.1
    ∧ (predict_status model scaler le_time input_data).2.1 ≤ 1 := by
  refine ⟨rfl, rfl, ?_⟩
  show 0 ≤ listMax (model.probaFn (scaler (encode_features le_time input_data)))
    ∧ listMax (model.probaFn (scaler (encode_features le_time input_data))) ≤ 1
  cases hcase : model.probaFn (scaler (encode_features le_time input_data)) with
  | nil => exact absurd hcase hne
  | cons x xs =>
    rw [hcase] at hp
    have hx := hp x (List.mem_cons_self x xs)
    constructor
    · exact le_trans hx.1 (le_foldl_max xs x)
    · exact foldl_max_le xs x hx.2 (fun y hy => (hp y (List.mem_cons_of_mem x hy)).2)

/-- A trivial concrete classifier instantiating the abstraction for the
witness: it answers with a fixed two-class probability vector. -/
def const_classifier : Classifier :=
  { predictFn := fun _ => "Alert", probaFn := fun _ => [0.5, 0.5] }

/-- The identity scaling transform, used by the witness. -/
def id_scaler : List ℚ → List ℚ := fun v => v

/-- A concrete time-of-day encoder, used by the witness. -/
def zero_encoder : String → ℚ := fun _ => 0

/-- Witness for C5 at a concrete classifier, scaler, encoder and row. -/
theorem predict_status_spec_witness :
    (predict_status const_classifier id_scaler zero_encoder ⟨7, 5, 1, 30, 35, 4, "Morning"⟩).2.2
        = weighted_fatigue_score ⟨7, 5, 1, 30, 35, 4, "Morning"⟩
    ∧ (predict_status const_classifier id_scaler zero_encoder ⟨7, 5, 1, 30, 35, 4, "Morning"⟩).2.1
        = listMax (const_classifier.probaFn
            (id_scaler (encode_features zero_encoder ⟨7, 5, 1, 30, 35, 4, "Morning"⟩)))
    ∧ 0 ≤ (predict_status const_classifier id_scaler zero_encoder ⟨7, 5, 1, 30, 35, 4, "Morning"⟩).2.1
    ∧ (predict_status const_classifier id_scaler zero_encoder ⟨7, 5, 1, 30, 35, 4, "Morning"⟩).2.1 ≤ 1 :=
  predict_status_spec const_classifier id_scaler zero_encoder ⟨7, 5, 1, 30, 35, 4, "Morning"⟩
    (by simp [const_classifier])
    (by
      intro p hp
      simp [const_classifier] at hp
      rw [hp]
      norm_num)

/-- One row of the in-memory session table st.session_state.driver_records
(streamlit_app.py): the submitted input fields plus Timestamp,
Fatigue_Score, Prediction and Confidence. -/
structure DriverRecord where
  Name : String
  Sleep_Hours : ℚ
  Driving_Hours : ℚ
  Caffeine_Cups : ℚ
  Rest_Breaks : ℚ
  Age : ℚ
  Stress_Level : ℚ
  Time_of_Day : String
  Timestamp : String
  Fatigue_Score : ℚ
  Prediction : String
  Confidence : ℚ
deriving Repr, DecidableEq

/-- streamlit_app.py lines 148-154: the record dict built from the submitted
inputs and the prediction results. -/
def mk_record (name : String) (input_data : Row) (now : String)
    (pred : String) (conf score : ℚ) : DriverRecord :=
  { Name := name, Sleep_Hours := input_data.Sleep_Hours,
    Driving_Hours := input_data.Driving_Hours,
    Caffeine_Cups := input_data.Caffeine_Cups,
    Rest_Breaks := input_data.Rest_Breaks, Age := input_data.Age,
    Stress_Level := input_data.Stress_Level,
    Time_of_Day := input_data.Time_of_Day, Timestamp := now,
    Fatigue_Score := score, Prediction := pred, Confidence := conf }

/-- streamlit_app.py, Add Driver form handler (lines 134-159): runs
predict_status on the submitted inputs and concatenates exactly one new
record onto the session table.  The handler performs no file writes; the
new session table is its only effect. -/
def add_driver_submit (model : Classifier) (scaler : List ℚ → List ℚ)
    (le_time : String → ℚ) (records : List DriverRecord)
    (name : String) (input_data : Row) (now : String) : List DriverRecord :=
  let r := predict_status model scaler le_time input_data
  records ++ [mk_record name input_data now r.1 r.2.1 r.2.2]

/-- C8: submitting an assessment appends exactly one record, made of the
submitted input fields plus Timestamp, Fatigue_Score, Prediction and
Confidence, to the end of the session table; every previously stored
record is unchanged. -/
theorem add_driver_frame (model : Classifier) (scaler : List ℚ → List ℚ)
    (le_time : String → ℚ) (records : List DriverRecord)
    (name : String) (input_data : Row) (now : String) :
    add_driver_submit model scaler le_time records name input_data now
      = records ++ [mk_record name input_data now
          (predict_status model scaler le_time input_data).1
          (predict_status model scaler le_time input_data).2.1
          (predict_status model scaler le_time input_data).2.2]
    ∧ (add_driver_submit model scaler le_time records name input_data now).take
        records.length = records
    ∧ (add_driver_submit model scaler le_time records name input_data now).length
        = records.length + 1 := by
  refine ⟨rfl, ?_, ?_⟩
  · simp [add_driver_submit, List.take_left]
  · simp [add_driver_submit]

end Fatigue
